import Mathlib

/-!
Verification of the dual-mode to-do list manager (`todo.py`, the Tkinter/GUI
variant, and `todo_cli.py`, the pure CLI variant) against its specification.

Shallow embedding conventions:
- Task records live in the backing file as JSON objects and in memory as
  Python dicts (`todo_cli.py`) or `Task` objects (`todo.py`).  `RawTask`
  models a task dict restricted to the well-typed field shapes of the data
  model (string-or-absent text fields, integer-or-absent id, boolean
  completed flag); `Option` captures an absent key or a JSON `null`, both of
  which `dict.get` turns into Python `None`.
- Python string truthiness (`if not value`) is the explicit emptiness test on
  the modelled string; `str.lower` is `String.toLower` and `str.strip` is
  `String.trim` (digits and whitespace are modelled as ASCII; Python's
  `\d`/`strip` additionally accept exotic Unicode, which no claim exercises).
- `datetime.date` values are `PyDate` triples compared lexicographically,
  exactly as Python compares dates; `date + timedelta(days=n)` is `n`
  applications of the calendar successor, which agrees with Python's
  proleptic-Gregorian ordinal arithmetic on valid dates.
- `datetime.strptime(s, "%Y-%m-%d").date()` is `parseDate`: the `_strptime`
  regex for this format is anchored, must consume the whole string, and
  matches `\d{4}` for `%Y`, `1[0-2]|0[1-9]|[1-9]` for `%m` and
  `3[01]|[12]\d|0[1-9]|[1-9]` for `%d`; splitting on `-` and validating the
  three components is equivalent because the digit classes never match `-`.
  The `datetime` constructor then enforces `MINYEAR <= year` and
  `day <= days-in-month` (with Gregorian leap years).
- File I/O is modelled by `ReadOutcome` (what opening & reading the backing
  file yields: absent file, OS-level read error, bytes that are not UTF-8,
  text that is not JSON, or a decoded JSON value `PyVal`) and `WriteOutcome`
  (a write either succeeds or raises `OSError`, leaving the file in an
  unspecified state carried by the outcome).  The Python `json` codec is
  modelled at the value level: `json.dump` stores the value and `json.load`
  returns it, which is the codec's round-trip contract for JSON values; the
  repository's own code performs no validation or transformation on either
  side, which is exactly what the load/save definitions exhibit.
-/

namespace Todo

/-! ### Python string primitives, modelled over the character list -/

/-- Python `str.lower` (ASCII model). -/
def pyLower (s : String) : String :=
  String.mk (s.data.map Char.toLower)

/-- Python `str.strip` (ASCII-whitespace model): drop whitespace from both
ends. -/
def pyStrip (s : String) : String :=
  String.mk (((s.data.dropWhile Char.isWhitespace).reverse.dropWhile
    Char.isWhitespace).reverse)

/-! ### Constants (todo.py lines 10-18, todo_cli.py lines 12-14) -/

def PRIORITY_LEVELS : List String := ["low", "medium", "high"]

def DEFAULT_PRIORITY : String := PRIORITY_LEVELS[1]

def CATEGORY_OPTIONS : List String := ["General", "Work", "Personal", "Urgent"]

def DEFAULT_CATEGORY : String := CATEGORY_OPTIONS[0]

def FILTER_OPTIONS : List String := ["all", "completed", "pending", "due-soon"]

/-! ### normalize_priority (todo.py lines 31-38)

Input is `Option String`: `none` is Python `None` (absent input).  `if not
value` is true for `None` and for the empty string; `value.lower()` is
`toLower`; the loop returns the first `level` in `PRIORITY_LEVELS` with
`level.lower() == value`, else falls through to the default. -/

def normalize_priority (value : Option String) : String :=
  match value with
  | none => DEFAULT_PRIORITY
  | some s =>
    if s = "" then DEFAULT_PRIORITY
    else
      match PRIORITY_LEVELS.find? (fun level => pyLower level = pyLower s) with
      | some level => level
      | none => DEFAULT_PRIORITY

/-! ### Task records -/

/-- A task dict as stored in the backing file / manipulated by `todo_cli.py`,
restricted to the well-typed field shapes of the data model.  `none` models
an absent key (or JSON `null`): `d.get(k)` then yields Python `None`. -/
structure RawTask where
  id : Option Int
  title : Option String
  description : Option String
  category : Option String
  priority : Option String
  completed : Bool
  due_date : Option String
  created_at : Option String
deriving DecidableEq, Repr

/-- In-memory `Task` object of `todo.py` (class Task, lines 85-104). -/
structure Task where
  id : Option Int
  title : String
  description : String
  category : String
  priority : String
  completed : Bool
  created_at : String
deriving DecidableEq, Repr

/-- Task.__init__ (todo.py lines 86-93).  `datetime.now().strftime(...)` is
ambient state, passed in as `now`.  The constructor normalizes the priority
and stamps `created_at` with the current time; it has no parameter by which
a caller could supply a previously stored `created_at`. -/
def Task.init (now : String) (task_id : Option Int) (title description category : String)
    (priority : Option String) (completed : Bool) : Task :=
  { id := task_id
    title := title
    description := description
    category := category
    priority := normalize_priority priority
    completed := completed
    created_at := now }

/-- Task.to_dict (todo.py lines 95-104).  Note the GUI dict has no
`due_date` key. -/
def Task.to_dict (t : Task) : RawTask :=
  { id := t.id
    title := some t.title
    description := some t.description
    category := some t.category
    priority := some t.priority
    completed := t.completed
    due_date := none
    created_at := some t.created_at }

/-! ### next_task_id (todo.py lines 56-59, todo_cli.py lines 106-109)

`max(task.get("id", 0) for task in tasks) + 1` guarded by `if not tasks`.
`pyMax` is Python's `max` on a non-empty sequence (the empty case is
unreachable behind the guard; 0 is an arbitrary value for totality). -/

def pyMax : List Int → Int
  | [] => 0
  | x :: xs => xs.foldl max x

def next_task_id (tasks : List RawTask) : Int :=
  if tasks.isEmpty then 1
  else pyMax (tasks.map (fun t => t.id.getD 0)) + 1

/-! ### Dates -/

/-- A `datetime.date`: Python compares dates lexicographically by
(year, month, day). -/
structure PyDate where
  year : Nat
  month : Nat
  day : Nat
deriving DecidableEq, Repr

def isLeap (y : Nat) : Bool :=
  y % 4 == 0 && (y % 100 != 0 || y % 400 == 0)

def daysInMonth (y m : Nat) : Nat :=
  if m = 2 then (if isLeap y then 29 else 28)
  else if m = 4 ∨ m = 6 ∨ m = 9 ∨ m = 11 then 30
  else 31

/-- Python `date.__le__`: lexicographic on (year, month, day). -/
def dateLe (a b : PyDate) : Bool :=
  decide (a.year < b.year ∨ (a.year = b.year ∧
    (a.month < b.month ∨ (a.month = b.month ∧ a.day ≤ b.day))))

/-- Calendar successor: `date + timedelta(days=1)` for valid dates. -/
def succDate (dt : PyDate) : PyDate :=
  if dt.day < daysInMonth dt.year dt.month then ⟨dt.year, dt.month, dt.day + 1⟩
  else if dt.month < 12 then ⟨dt.year, dt.month + 1, 1⟩
  else ⟨dt.year + 1, 1, 1⟩

/-- `date + timedelta(days=n)`. -/
def addDays : Nat → PyDate → PyDate
  | 0, dt => dt
  | n + 1, dt => addDays n (succDate dt)

/-- Numeric value of a digit sequence (`int()` on the matched group). -/
def digitsVal (cs : List Char) : Nat :=
  cs.foldl (fun n c => 10 * n + (c.toNat - 48)) 0

/-- Split a character sequence at every `-` (the field separators of the
`%Y-%m-%d` format; the digit classes of the component regexes never match
`-`, so this is equivalent to the anchored, whole-string regex match). -/
def splitDash : List Char → List (List Char)
  | [] => [[]]
  | c :: cs =>
    let r := splitDash cs
    if c = '-' then [] :: r
    else
      match r with
      | [] => [[c]]
      | g :: gs => (c :: g) :: gs

/-- The `%Y` component: exactly four digits. -/
def isYearStr (cs : List Char) : Bool :=
  cs.length == 4 && cs.all Char.isDigit

/-- The `%m` / `%d` components: one or two digits (the regex alternations
for month and day accept exactly the 1-2 digit strings whose value lies in
1..12 resp. 1..31; the value range is checked separately). -/
def isMDStr (cs : List Char) : Bool :=
  (cs.length == 1 || cs.length == 2) && cs.all Char.isDigit

/-- `datetime.strptime(s, "%Y-%m-%d").date()`, `none` for `ValueError`. -/
def parseDate (s : String) : Option PyDate :=
  match splitDash s.data with
  | [ys, ms, ds] =>
    if isYearStr ys && isMDStr ms && isMDStr ds then
      let y := digitsVal ys
      let m := digitsVal ms
      let d := digitsVal ds
      if 1 ≤ m && m ≤ 12 && 1 ≤ d && d ≤ 31 && 1 ≤ y && d ≤ daysInMonth y m then
        some ⟨y, m, d⟩
      else none
    else none
  | _ => none

/-! ### filter_tasks (todo.py lines 62-82, todo_cli.py lines 150-170)

Both variants are behaviourally identical on well-typed records (todo.py
wraps parse and comparison in one `try/except Exception`, todo_cli.py
catches `ValueError` around the parse alone; date comparison raises
nothing).  `date.today()` is ambient state, passed in as `today`.  The
`due-soon` loop (`if pred: result.append(t)` in input order) is
`List.filter`. -/

/-- The due-soon predicate: `if not due: continue`, then parse, then
`today <= d <= soon` with `soon = today + timedelta(days=3)`. -/
def duePred (today : PyDate) (t : RawTask) : Bool :=
  match t.due_date with
  | none => false
  | some s =>
    if s = "" then false
    else
      match parseDate s with
      | none => false
      | some d => dateLe today d && dateLe d (addDays 3 today)

def filter_tasks (today : PyDate) (tasks : List RawTask) (mode : String) : List RawTask :=
  if mode = "completed" then tasks.filter (fun t => t.completed)
  else if mode = "pending" then tasks.filter (fun t => !t.completed)
  else if mode = "due-soon" then tasks.filter (duePred today)
  else tasks

/-! ### The backing file and the JSON codec -/

/-- A decoded JSON value / JSON-representable Python value. -/
inductive PyVal where
  | null : PyVal
  | bool : Bool → PyVal
  | int : Int → PyVal
  | str : String → PyVal
  | list : List PyVal → PyVal
  | dict : List (String × PyVal) → PyVal

/-- `d.get(k)` on a dict value. -/
def dictGet (kvs : List (String × PyVal)) (k : String) : Option PyVal :=
  (kvs.find? (fun p => p.1 = k)).map (fun p => p.2)

/-- Exceptions the load/save paths can raise. -/
inductive PyExn where
  | osError : PyExn
  | unicodeDecodeError : PyExn
  | jsonDecodeError : PyExn
deriving DecidableEq, Repr

/-- What opening and reading the backing file yields.  `os.path.exists` is
false exactly on `absent`; opening/reading raises `OSError` on `osError`;
`json.load` raises `UnicodeDecodeError` on `badEncoding` (the file's bytes
are not valid UTF-8) and `json.JSONDecodeError` on `badJson` (the text is
not valid JSON); on `ok v` it returns the decoded value `v`. -/
inductive ReadOutcome where
  | absent : ReadOutcome
  | osError : ReadOutcome
  | badEncoding : ReadOutcome
  | badJson : ReadOutcome
  | ok : PyVal → ReadOutcome

/-- load_tasks (todo.py lines 41-48): `except Exception` catches every
failure, so any non-`ok` outcome yields the empty list; an `ok` outcome is
returned verbatim, with no validation of its shape. -/
def load_tasks_gui : ReadOutcome → PyVal
  | .absent => .list []
  | .osError => .list []
  | .badEncoding => .list []
  | .badJson => .list []
  | .ok v => v

/-- load_tasks (todo_cli.py lines 87-96): only `json.JSONDecodeError` and
`OSError` are caught (with a printed warning); a `UnicodeDecodeError` from
decoding the file's bytes is neither, and propagates.  An `ok` outcome is
returned verbatim, with no validation of its shape. -/
def load_tasks_cli : ReadOutcome → Except PyExn PyVal
  | .absent => .ok (.list [])
  | .osError => .ok (.list [])
  | .badEncoding => .error .unicodeDecodeError
  | .badJson => .ok (.list [])
  | .ok v => .ok v

/-- Outcome of `open(..., "w")` + `json.dump`: either the write succeeds, or
it raises `OSError` leaving the file in some unspecified state `post`. -/
inductive WriteOutcome where
  | ok : WriteOutcome
  | osError : ReadOutcome → WriteOutcome

/-- The raw file write: on success the file afterwards reads back as the
value written (the `json` codec's round-trip contract). -/
def pyWrite (w : WriteOutcome) (v : PyVal) : ReadOutcome × Option PyExn :=
  match w with
  | .ok => (.ok v, none)
  | .osError post => (post, some .osError)

/-- save_tasks (todo.py lines 51-53): no `try/except`, so a raised
`OSError` propagates to the caller; nothing is printed. -/
def save_tasks_gui (tasks : PyVal) (w : WriteOutcome) : ReadOutcome × Option PyExn :=
  pyWrite w tasks

/-- save_tasks (todo_cli.py lines 98-103): `except OSError` prints an error
message and returns normally.  Result: (file state, raised exception,
whether an error message was printed). -/
def save_tasks_cli (tasks : PyVal) (w : WriteOutcome) : ReadOutcome × Option PyExn × Bool :=
  match pyWrite w tasks with
  | (fs, none) => (fs, none, false)
  | (fs, some _) => (fs, none, true)

/-- A save call as seen from a caller holding the in-memory collection: the
Python functions never touch the list they are handed, so the caller's
collection after the call is the collection before it. -/
def saveStep (tasks : List PyVal) (w : WriteOutcome) :
    List PyVal × ReadOutcome × Option PyExn × Bool :=
  (tasks, save_tasks_cli (.list tasks) w)

/-- A JSON value that is not a list or a dict. -/
def scalarVal : PyVal → Bool
  | .list _ => false
  | .dict _ => false
  | _ => true

/-- A well-formed persisted task record: a flat JSON object with distinct
keys and scalar field values (the shapes both variants ever write). -/
def WellFormedTaskDict (v : PyVal) : Prop :=
  ∃ kvs, v = .dict kvs ∧ (kvs.map Prod.fst).Nodup ∧ ∀ p ∈ kvs, scalarVal p.2 = true

/-! ### The GUI load path (todo.py lines 583-594) and the CLI prompts -/

/-- Python `a or b` on a string-or-None left operand: the left value when it
is a non-empty string, otherwise the right. -/
def pyOrS (a : Option String) (b : String) : String :=
  match a with
  | none => b
  | some s => if s = "" then b else s

/-- One iteration of the `__main__` reload loop (todo.py lines 586-592):
`title = d.get("title") or d.get("description") or "Untitled"`,
`desc = d.get("description") or ""`, `cat = d.get("category") or "General"`,
`priority = normalize_priority(d.get("priority"))`,
`completed = d.get("completed", False)`, then `Task(...)` — whose
constructor stamps `created_at` with the current time `now`, discarding the
stored `d.created_at`. -/
def reconstructTask (now : String) (d : RawTask) : Task :=
  Task.init now d.id
    (pyOrS d.title (pyOrS d.description "Untitled"))
    (pyOrS d.description "")
    (pyOrS d.category "General")
    (some (normalize_priority d.priority))
    d.completed

/-- prompt_priority (todo_cli.py lines 124-131): reads inputs until one is
blank (returning the default) or a canonical level (returning it);
`inputs` is the successive user answers, `none` models a user who never
supplies an acceptable one. -/
def prompt_priority (default : String) : List String → Option String
  | [] => none
  | raw :: rest =>
    let r := pyLower (pyStrip raw)
    if r = "" then some default
    else if PRIORITY_LEVELS.contains r then some r
    else prompt_priority default rest

/-! ## Helper lemmas -/

theorem init_le_foldl_max : ∀ (xs : List Int) (x : Int), x ≤ xs.foldl max x
  | [], _ => le_refl _
  | y :: ys, x => le_trans (le_max_left x y) (init_le_foldl_max ys (max x y))

theorem le_foldl_max : ∀ (xs : List Int) (x a : Int), a = x ∨ a ∈ xs → a ≤ xs.foldl max x
  | [], _, _, h => by
    rcases h with rfl | h
    · exact le_refl _
    · exact absurd h (List.not_mem_nil _)
  | y :: ys, x, a, h => by
    rcases h with rfl | h
    · exact le_trans (le_max_left a y) (init_le_foldl_max ys (max a y))
    · rcases List.mem_cons.mp h with rfl | h
      · exact le_trans (le_max_right x a) (init_le_foldl_max ys (max x a))
      · exact le_foldl_max ys (max x y) a (Or.inr h)

theorem pyLower_low : pyLower "low" = "low" := by decide

theorem pyLower_medium : pyLower "medium" = "medium" := by decide

theorem pyLower_high : pyLower "high" = "high" := by decide

/-- On a string argument, `normalize_priority` returns the lower-cased input
when that is a canonical level, and the default otherwise. -/
theorem normalize_priority_some (s : String) :
    normalize_priority (some s) =
      if pyLower s ∈ PRIORITY_LEVELS then pyLower s else DEFAULT_PRIORITY := by
  show (if s = "" then DEFAULT_PRIORITY else _) = _
  by_cases hs : s = ""
  · subst hs
    rw [if_pos rfl, if_neg (by decide : ¬ pyLower "" ∈ PRIORITY_LEVELS)]
  · rw [if_neg hs]
    by_cases h1 : pyLower s = "low"
    · rw [show PRIORITY_LEVELS.find? (fun level => pyLower level = pyLower s)
            = some "low" from List.find?_cons_of_pos _ (by rw [pyLower_low, h1]; exact rfl)]
      rw [if_pos (by rw [h1]; decide), h1]
    by_cases h2 : pyLower s = "medium"
    · rw [show PRIORITY_LEVELS.find? (fun level => pyLower level = pyLower s)
            = some "medium" by
          rw [show PRIORITY_LEVELS = "low" :: ["medium", "high"] from rfl,
            List.find?_cons_of_neg _ (by rw [pyLower_low, h2]; simp),
            List.find?_cons_of_pos _ (by rw [pyLower_medium, h2]; exact rfl)]]
      rw [if_pos (by rw [h2]; decide), h2]
    by_cases h3 : pyLower s = "high"
    · rw [show PRIORITY_LEVELS.find? (fun level => pyLower level = pyLower s)
            = some "high" by
          rw [show PRIORITY_LEVELS = "low" :: "medium" :: ["high"] from rfl,
            List.find?_cons_of_neg _ (by rw [pyLower_low, h3]; simp),
            List.find?_cons_of_neg _ (by rw [pyLower_medium, h3]; simp),
            List.find?_cons_of_pos _ (by rw [pyLower_high, h3]; exact rfl)]]
      rw [if_pos (by rw [h3]; decide), h3]
    · rw [show PRIORITY_LEVELS.find? (fun level => pyLower level = pyLower s)
            = none by
          rw [show PRIORITY_LEVELS = "low" :: "medium" :: "high" :: [] from rfl,
            List.find?_cons_of_neg _ (by rw [pyLower_low]; simp [Ne.symm h1]),
            List.find?_cons_of_neg _ (by rw [pyLower_medium]; simp [Ne.symm h2]),
            List.find?_cons_of_neg _ (by rw [pyLower_high]; simp [Ne.symm h3])]
          exact rfl]
      rw [if_neg (by simp [PRIORITY_LEVELS, h1, h2, h3])]

theorem normalize_priority_mem (v : Option String) :
    normalize_priority v ∈ PRIORITY_LEVELS := by
  cases v with
  | none => decide
  | some s =>
    rw [normalize_priority_some]
    by_cases h : pyLower s ∈ PRIORITY_LEVELS
    · rw [if_pos h]; exact h
    · rw [if_neg h]; decide

/-! ## Claim theorems -/

/-- C1: for the empty collection `next_task_id` returns 1; for every
non-empty collection of task records whose ids are integers (present), it
returns an integer strictly greater than every id present. -/
theorem next_task_id_spec :
    next_task_id [] = 1 ∧
    ∀ (tasks : List RawTask), tasks ≠ [] →
      (∀ t ∈ tasks, (t.id).isSome) →
      ∀ t ∈ tasks, ∀ i : Int, t.id = some i → i < next_task_id tasks := by
  refine ⟨rfl, ?_⟩
  intro tasks hne _hids t ht i hid
  cases tasks with
  | nil => exact absurd rfl hne
  | cons hd tl =>
    show i < pyMax ((hd :: tl).map (fun t => t.id.getD 0)) + 1
    have hval : (t.id).getD 0 = i := by rw [hid]; rfl
    have hmem : i ∈ (hd :: tl).map (fun t => t.id.getD 0) := by
      rw [← hval]; exact List.mem_map_of_mem _ ht
    have hle : i ≤ pyMax ((hd :: tl).map (fun t => t.id.getD 0)) := by
      show i ≤ (tl.map (fun t => t.id.getD 0)).foldl max (hd.id.getD 0)
      exact le_foldl_max _ _ _ (List.mem_cons.mp hmem)
    exact Int.lt_add_one_iff.mpr hle

/-- Witness for C1 at the concrete one-record collection with id 5. -/
theorem next_task_id_spec_witness :
    (5 : Int) < next_task_id [RawTask.mk (some 5) none none none none false none none] :=
  next_task_id_spec.2 [RawTask.mk (some 5) none none none none false none none]
    (by decide) (by decide) (RawTask.mk (some 5) none none none none false none none)
    (by decide) 5 rfl

/-- C2: `normalize_priority` is total and idempotent: every input (including
the empty string and absent input) maps into the canonical set; any case
variation of a canonical level maps to that lowercase level; every other
input maps to "medium"; applying it twice equals applying it once. -/
theorem normalize_priority_spec :
    (∀ v : Option String, normalize_priority v ∈ PRIORITY_LEVELS) ∧
    (∀ s : String, pyLower s ∈ PRIORITY_LEVELS →
      normalize_priority (some s) = pyLower s) ∧
    (∀ s : String, pyLower s ∉ PRIORITY_LEVELS →
      normalize_priority (some s) = DEFAULT_PRIORITY) ∧
    normalize_priority none = DEFAULT_PRIORITY ∧
    (∀ v : Option String,
      normalize_priority (some (normalize_priority v)) = normalize_priority v) := by
  refine ⟨normalize_priority_mem, ?_, ?_, rfl, ?_⟩
  · intro s h
    rw [normalize_priority_some, if_pos h]
  · intro s h
    rw [normalize_priority_some, if_neg h]
  · intro v
    have h := normalize_priority_mem v
    rcases (by simpa [PRIORITY_LEVELS] using h :
        normalize_priority v = "low" ∨ normalize_priority v = "medium" ∨
        normalize_priority v = "high") with h' | h' | h' <;> rw [h'] <;> decide

/-- Witness for C2 at concrete inputs "LOW" (a case variation) and "urgent"
(an unmatched priority string). -/
theorem normalize_priority_spec_witness :
    normalize_priority (some "LOW") = pyLower "LOW" ∧
    normalize_priority (some "urgent") = DEFAULT_PRIORITY :=
  ⟨normalize_priority_spec.2.1 "LOW" (by decide),
   normalize_priority_spec.2.2.1 "urgent" (by decide)⟩

theorem filter_tasks_completed (today : PyDate) (tasks : List RawTask) :
    filter_tasks today tasks "completed" = tasks.filter (fun t => t.completed) := rfl

theorem filter_tasks_pending (today : PyDate) (tasks : List RawTask) :
    filter_tasks today tasks "pending" = tasks.filter (fun t => !t.completed) := by
  show (if ("pending" : String) = "completed" then _ else _) = _
  rw [if_neg (by decide), if_pos rfl]

theorem filter_tasks_due_soon (today : PyDate) (tasks : List RawTask) :
    filter_tasks today tasks "due-soon" = tasks.filter (duePred today) := by
  show (if ("due-soon" : String) = "completed" then _ else _) = _
  rw [if_neg (by decide), if_neg (by decide), if_pos rfl]

theorem duePred_eq_true_iff (today : PyDate) (t : RawTask) :
    duePred today t = true ↔
      ∃ s d, t.due_date = some s ∧ parseDate s = some d ∧
        dateLe today d = true ∧ dateLe d (addDays 3 today) = true := by
  obtain ⟨tid, tti, tde, tca, tpr, tco, tdd, tcr⟩ := t
  cases tdd with
  | none =>
    constructor
    · intro h
      exact absurd h (by simp [duePred])
    · rintro ⟨s, d, hdd, -⟩
      exact Option.noConfusion hdd
  | some s =>
    have hred : duePred today ⟨tid, tti, tde, tca, tpr, tco, some s, tcr⟩ =
        if s = "" then false else
          match parseDate s with
          | none => false
          | some d => dateLe today d && dateLe d (addDays 3 today) := rfl
    constructor
    · intro h
      rw [hred] at h
      by_cases hs : s = ""
      · rw [if_pos hs] at h
        exact absurd h (by simp)
      · rw [if_neg hs] at h
        cases hp : parseDate s with
        | none => rw [hp] at h; exact absurd h (by simp)
        | some d =>
          rw [hp] at h
          have h12 : dateLe today d = true ∧ dateLe d (addDays 3 today) = true := by
            simpa using h
          exact ⟨s, d, rfl, hp, h12.1, h12.2⟩
    · rintro ⟨s', d, hdd, hp, h1, h2⟩
      have hss : s = s' := by
        have : some s = some s' := hdd
        exact Option.some.inj this
      subst hss
      have hs : s ≠ "" := by
        intro he
        rw [he, show parseDate "" = none from by decide] at hp
        exact Option.noConfusion hp
      rw [hred, if_neg hs, hp]
      show (dateLe today d && dateLe d (addDays 3 today)) = true
      rw [h1, h2]
      rfl

/-- C3: for every collection and every value of today, the "completed" and
"pending" filter results partition the collection exactly: each result
draws only from the collection, every task of the collection lies in
exactly one of the two, and multiplicities add up. -/
theorem filter_partition_spec (today : PyDate) (tasks : List RawTask) :
    (∀ t ∈ filter_tasks today tasks "completed", t ∈ tasks) ∧
    (∀ t ∈ filter_tasks today tasks "pending", t ∈ tasks) ∧
    (∀ t ∈ tasks,
      (t ∈ filter_tasks today tasks "completed" ∧
        t ∉ filter_tasks today tasks "pending") ∨
      (t ∉ filter_tasks today tasks "completed" ∧
        t ∈ filter_tasks today tasks "pending")) ∧
    (∀ t : RawTask,
      (filter_tasks today tasks "completed").count t +
        (filter_tasks today tasks "pending").count t = tasks.count t) := by
  rw [filter_tasks_completed, filter_tasks_pending]
  refine ⟨?_, ?_, ?_, ?_⟩
  · exact fun t ht => (List.mem_filter.mp ht).1
  · exact fun t ht => (List.mem_filter.mp ht).1
  · intro t ht
    cases hc : t.completed with
    | true =>
      refine Or.inl ⟨List.mem_filter.mpr ⟨ht, hc⟩, fun hm => ?_⟩
      have := (List.mem_filter.mp hm).2
      rw [hc] at this
      exact absurd this (by simp)
    | false =>
      refine Or.inr ⟨fun hm => ?_, List.mem_filter.mpr ⟨ht, by rw [hc]; rfl⟩⟩
      have := (List.mem_filter.mp hm).2
      rw [hc] at this
      exact absurd this (by simp)
  · intro t
    have key : ∀ (p : RawTask → Bool), p t = true →
        ∀ l : List RawTask, (l.filter p).count t = l.count t := by
      intro p hp l
      induction l with
      | nil => rfl
      | cons b bs ih =>
        by_cases hb : p b = true
        · rw [List.filter_cons_of_pos hb, List.count_cons, List.count_cons, ih]
        · rw [List.filter_cons_of_neg (by simpa using hb), ih, List.count_cons]
          have hab : ¬ t = b := fun he => hb (he ▸ hp)
          have hba : ¬ b = t := fun he => hab he.symm
          simp [hab, hba]
    have key0 : ∀ (p : RawTask → Bool), p t = false →
        ∀ l : List RawTask, (l.filter p).count t = 0 := by
      intro p hp l
      apply List.count_eq_zero_of_not_mem
      intro hm
      have h2 := (List.mem_filter.mp hm).2
      rw [hp] at h2
      exact absurd h2 (by simp)
    cases hc : t.completed with
    | true =>
      rw [key (fun x : RawTask => x.completed) (by simpa using hc) tasks,
        key0 (fun x : RawTask => !x.completed) (by simp [hc]) tasks, Nat.add_zero]
    | false =>
      rw [key0 (fun x : RawTask => x.completed) (by simpa using hc) tasks,
        key (fun x : RawTask => !x.completed) (by simp [hc]) tasks, Nat.zero_add]

/-- Witness for C3 on a two-task collection, one completed and one pending. -/
theorem filter_partition_spec_witness :
    (RawTask.mk (some 1) none none none none true none none ∈
        filter_tasks (PyDate.mk 2024 1 1)
          [RawTask.mk (some 1) none none none none true none none,
           RawTask.mk (some 2) none none none none false none none] "completed" ∧
      RawTask.mk (some 1) none none none none true none none ∉
        filter_tasks (PyDate.mk 2024 1 1)
          [RawTask.mk (some 1) none none none none true none none,
           RawTask.mk (some 2) none none none none false none none] "pending") ∨
    (RawTask.mk (some 1) none none none none true none none ∉
        filter_tasks (PyDate.mk 2024 1 1)
          [RawTask.mk (some 1) none none none none true none none,
           RawTask.mk (some 2) none none none none false none none] "completed" ∧
      RawTask.mk (some 1) none none none none true none none ∈
        filter_tasks (PyDate.mk 2024 1 1)
          [RawTask.mk (some 1) none none none none true none none,
           RawTask.mk (some 2) none none none none false none none] "pending") :=
  (filter_partition_spec (PyDate.mk 2024 1 1)
    [RawTask.mk (some 1) none none none none true none none,
     RawTask.mk (some 2) none none none none false none none]).2.2.1
    (RawTask.mk (some 1) none none none none true none none) (by decide)

/-- C4: for every collection and every value of today, the "due-soon" filter
result contains exactly the tasks of the collection whose `due_date` is
present and parses under YYYY-MM-DD to a date between today and today plus
three days, inclusive on both ends; a task with an absent or unparsable
`due_date` is never in the result. -/
theorem filter_due_soon_spec (today : PyDate) (tasks : List RawTask) (t : RawTask) :
    t ∈ filter_tasks today tasks "due-soon" ↔
      t ∈ tasks ∧ ∃ s d, t.due_date = some s ∧ parseDate s = some d ∧
        dateLe today d = true ∧ dateLe d (addDays 3 today) = true := by
  rw [filter_tasks_due_soon, List.mem_filter, duePred_eq_true_iff]

/-- Witness for C4: a task due two days after today is in the result. -/
theorem filter_due_soon_spec_witness :
    RawTask.mk (some 1) none none none none false (some "2024-03-02") none ∈
      filter_tasks (PyDate.mk 2024 2 29)
        [RawTask.mk (some 1) none none none none false (some "2024-03-02") none]
        "due-soon" :=
  (filter_due_soon_spec (PyDate.mk 2024 2 29)
    [RawTask.mk (some 1) none none none none false (some "2024-03-02") none]
    (RawTask.mk (some 1) none none none none false (some "2024-03-02") none)).mpr
    ⟨by decide, "2024-03-02", PyDate.mk 2024 3 2, rfl, by decide, by decide, by decide⟩

/-- C10: for every mode string other than "completed", "pending" and
"due-soon" — not only the documented "all" — `filter_tasks` returns the
input collection unchanged; and for every mode the result is a subsequence
of the input, preserving the original order. -/
theorem filter_tasks_modes_spec (today : PyDate) (tasks : List RawTask) :
    (∀ mode : String,
       mode ∉ (["completed", "pending", "due-soon"] : List String) →
       filter_tasks today tasks mode = tasks) ∧
    (∀ mode : String, (filter_tasks today tasks mode).Sublist tasks) := by
  constructor
  · intro mode h
    simp only [List.mem_cons, List.not_mem_nil, or_false, not_or] at h
    obtain ⟨h1, h2, h3⟩ := h
    unfold filter_tasks
    rw [if_neg h1, if_neg h2, if_neg h3]
  · intro mode
    unfold filter_tasks
    split_ifs <;> first
      | exact List.filter_sublist _
      | exact List.Sublist.refl _

/-- Witness for C10 at the undocumented mode string "anything". -/
theorem filter_tasks_modes_spec_witness :
    filter_tasks (PyDate.mk 2024 1 1)
      [RawTask.mk (some 1) none none none none true none none] "anything" =
      [RawTask.mk (some 1) none none none none true none none] :=
  (filter_tasks_modes_spec (PyDate.mk 2024 1 1)
    [RawTask.mk (some 1) none none none none true none none]).1 "anything" (by decide)

/-- C5: saving a collection of well-formed task records and reloading from
the backing file yields the collection saved, field for field, in both
variants: the save writes the entire collection and the load returns the
parsed content verbatim. -/
theorem save_load_roundtrip (tasks : List PyVal)
    (_hwf : ∀ t ∈ tasks, WellFormedTaskDict t) :
    load_tasks_gui (save_tasks_gui (.list tasks) .ok).1 = .list tasks ∧
    load_tasks_cli (save_tasks_cli (.list tasks) .ok).1 = .ok (.list tasks) :=
  ⟨rfl, rfl⟩

/-- Witness for C5 at a concrete one-record collection. -/
theorem save_load_roundtrip_witness :
    load_tasks_gui (save_tasks_gui
      (.list [.dict [("id", .int 1), ("description", .str "Buy milk"),
        ("due_date", .null), ("completed", .bool false),
        ("priority", .str "medium"), ("created_at", .str "2024-01-01 10:00")]])
      .ok).1 =
      .list [.dict [("id", .int 1), ("description", .str "Buy milk"),
        ("due_date", .null), ("completed", .bool false),
        ("priority", .str "medium"), ("created_at", .str "2024-01-01 10:00")]] :=
  (save_load_roundtrip
    [.dict [("id", .int 1), ("description", .str "Buy milk"),
      ("due_date", .null), ("completed", .bool false),
      ("priority", .str "medium"), ("created_at", .str "2024-01-01 10:00")]]
    (by
      intro t ht
      rw [List.mem_singleton] at ht
      subst ht
      refine ⟨_, rfl, by decide, ?_⟩
      rintro p hp
      simp only [List.mem_cons, List.not_mem_nil, or_false] at hp
      rcases hp with rfl | rfl | rfl | rfl | rfl | rfl <;> rfl)).1

/-- C6 counterexample: the claim says that whenever the backing file does
not contain well-formed task-record content, `load_tasks` returns the empty
collection; but a file holding the valid JSON value `42` — which is not
task-record content — is returned as parsed, not replaced by the empty
collection. -/
theorem load_tasks_nonrecord_counterexample :
    load_tasks_gui (.ok (.int 42)) = .int 42 ∧
    load_tasks_gui (.ok (.int 42)) ≠ .list [] :=
  ⟨rfl, fun h => PyVal.noConfusion h⟩

/-- C6 (amended): when the file is absent, unreadable at the OS level, or
holds text that is not valid JSON, `load_tasks` returns the empty collection
without raising — except that the CLI variant, which catches only
`json.JSONDecodeError` and `OSError`, propagates the `UnicodeDecodeError`
raised by a file whose bytes are not valid UTF-8; and a file holding any
valid JSON value is returned as parsed, without validation. -/
theorem load_tasks_error_spec :
    (∀ ro : ReadOutcome, (∀ v, ro ≠ .ok v) → load_tasks_gui ro = .list []) ∧
    (load_tasks_cli .absent = .ok (.list []) ∧
      load_tasks_cli .osError = .ok (.list []) ∧
      load_tasks_cli .badJson = .ok (.list [])) ∧
    load_tasks_cli .badEncoding = .error .unicodeDecodeError ∧
    (∀ v, load_tasks_gui (.ok v) = v ∧ load_tasks_cli (.ok v) = .ok v) := by
  refine ⟨?_, ⟨rfl, rfl, rfl⟩, rfl, fun v => ⟨rfl, rfl⟩⟩
  intro ro h
  cases ro with
  | ok v => exact absurd rfl (h v)
  | absent => rfl
  | osError => rfl
  | badEncoding => rfl
  | badJson => rfl

/-- Witness for C6 (amended) at the absent-file state. -/
theorem load_tasks_error_spec_witness :
    load_tasks_gui .absent = .list [] :=
  load_tasks_error_spec.1 .absent (fun _ h => ReadOutcome.noConfusion h)

/-- C7 counterexample: the claim says `save_tasks` reports a write failure
and returns without raising; but the GUI variant's `save_tasks` has no
exception handler, so the `OSError` raised by a failing write propagates to
its caller. -/
theorem save_tasks_gui_raises_counterexample :
    (save_tasks_gui (.list []) (.osError .absent)).2 = some .osError := rfl

/-- C7 (amended): on an I/O failure of the backing-file write, the CLI
variant's `save_tasks` catches the `OSError`, reports it (prints an error
message) and returns without raising, while the GUI variant's `save_tasks`
propagates the exception; in both variants the in-memory collection is
unchanged by the failed save (the functions never touch the list they are
handed), and a successful save raises nothing and reports nothing. -/
theorem save_tasks_failure_spec :
    (∀ (tasks : PyVal) (post : ReadOutcome),
      save_tasks_cli tasks (.osError post) = (post, none, true)) ∧
    (∀ (tasks : List PyVal) (w : WriteOutcome), (saveStep tasks w).1 = tasks) ∧
    (∀ (tasks : PyVal) (post : ReadOutcome),
      (save_tasks_gui tasks (.osError post)).2 = some .osError) ∧
    (∀ tasks : PyVal, save_tasks_gui tasks .ok = (.ok tasks, none) ∧
      save_tasks_cli tasks .ok = (.ok tasks, none, false)) := by
  refine ⟨fun tasks post => rfl, fun tasks w => ?_, fun tasks post => rfl,
    fun tasks => ⟨rfl, rfl⟩⟩
  cases w with
  | ok => rfl
  | osError post => rfl

/-- C8 counterexample: the claim says a collection obtained from
`load_tasks` satisfies the canonical-priority invariant regardless of the
priority strings stored in the file; but `load_tasks` returns stored
records unvalidated, so a file holding a record with priority "urgent"
loads as-is, violating the invariant. -/
theorem load_tasks_priority_counterexample :
    load_tasks_gui (.ok (.list [.dict [("id", .int 1),
      ("description", .str "x"), ("completed", .bool false),
      ("priority", .str "urgent"), ("created_at", .str "2024-01-01 10:00")]])) =
      .list [.dict [("id", .int 1), ("description", .str "x"),
        ("completed", .bool false), ("priority", .str "urgent"),
        ("created_at", .str "2024-01-01 10:00")]] ∧
    dictGet [("id", .int 1), ("description", .str "x"),
      ("completed", .bool false), ("priority", .str "urgent"),
      ("created_at", .str "2024-01-01 10:00")] "priority" = some (.str "urgent") ∧
    "urgent" ∉ PRIORITY_LEVELS :=
  ⟨rfl, rfl, by decide⟩

/-- C8 (amended): task construction always stores a canonical priority,
the GUI variant's load path re-normalizes every loaded record's priority
(so a GUI-reconstructed collection satisfies the invariant regardless of
the stored strings), and the CLI priority prompt only ever returns its
default or a canonical level; but `load_tasks` itself returns stored
priority strings unvalidated in both variants, so a collection obtained
directly from `load_tasks` satisfies the invariant only if the file already
does. -/
theorem priority_invariant_spec :
    (∀ (now : String) (d : RawTask),
      (reconstructTask now d).priority ∈ PRIORITY_LEVELS) ∧
    (∀ (now : String) (tid : Option Int) (title description category : String)
      (priority : Option String) (completed : Bool),
      (Task.init now tid title description category priority completed).priority ∈
        PRIORITY_LEVELS) ∧
    (∀ (default : String) (inputs : List String) (p : String),
      default ∈ PRIORITY_LEVELS → prompt_priority default inputs = some p →
      p ∈ PRIORITY_LEVELS) ∧
    (∀ v, load_tasks_cli (.ok v) = .ok v ∧ load_tasks_gui (.ok v) = v) := by
  refine ⟨?_, ?_, ?_, fun v => ⟨rfl, rfl⟩⟩
  · intro now d
    show normalize_priority (some (normalize_priority d.priority)) ∈ PRIORITY_LEVELS
    exact normalize_priority_mem _
  · intro now tid title description category priority completed
    show normalize_priority priority ∈ PRIORITY_LEVELS
    exact normalize_priority_mem _
  · intro default inputs p hdef
    induction inputs with
    | nil => intro h; exact Option.noConfusion h
    | cons raw rest ih =>
      intro h
      by_cases hb : pyLower (pyStrip raw) = ""
      · have : some default = some p := by
          rw [show prompt_priority default (raw :: rest) =
            if pyLower (pyStrip raw) = "" then some default
            else if PRIORITY_LEVELS.contains (pyLower (pyStrip raw)) then
              some (pyLower (pyStrip raw))
            else prompt_priority default rest from rfl, if_pos hb] at h
          exact h
        rw [← Option.some.inj this]
        exact hdef
      · by_cases hc : PRIORITY_LEVELS.contains (pyLower (pyStrip raw))
        · have hrp : pyLower (pyStrip raw) = p := by
            have h2 : some (pyLower (pyStrip raw)) = some p := by
              rw [show prompt_priority default (raw :: rest) =
                if pyLower (pyStrip raw) = "" then some default
                else if PRIORITY_LEVELS.contains (pyLower (pyStrip raw)) then
                  some (pyLower (pyStrip raw))
                else prompt_priority default rest from rfl, if_neg hb, if_pos hc] at h
              exact h
            exact Option.some.inj h2
          have hmem : pyLower (pyStrip raw) ∈ PRIORITY_LEVELS := by
            simpa using hc
          rw [← hrp]
          exact hmem
        · have : prompt_priority default rest = some p := by
            rw [show prompt_priority default (raw :: rest) =
              if pyLower (pyStrip raw) = "" then some default
              else if PRIORITY_LEVELS.contains (pyLower (pyStrip raw)) then
                some (pyLower (pyStrip raw))
              else prompt_priority default rest from rfl, if_neg hb, if_neg hc] at h
            exact h
          exact ih this

/-- Witness for C8 (amended): the prompt with default "medium" and user
input "HIGH" returns a canonical level. -/
theorem priority_invariant_spec_witness :
    ("high" : String) ∈ PRIORITY_LEVELS :=
  priority_invariant_spec.2.2.1 "medium" ["HIGH"] "high" (by decide) (by decide)

/-- C9 (code bug): the spec says `created_at` is captured at creation and
immutable thereafter, including across a reload; but `todo.py`'s reload
path (`__main__`, lines 583-594) rebuilds each stored record through
`Task.__init__`, which stamps `created_at` with the current time and offers
no way to pass the stored timestamp through — so a record stored with
`created_at` "2024-01-01 10:00" and reloaded at "2025-02-02 12:30" comes
back with the reload time, not its creation time. -/
theorem reconstruct_resets_created_at :
    (reconstructTask "2025-02-02 12:30"
      (RawTask.mk (some 1) (some "T") (some "D") (some "General")
        (some "medium") false none (some "2024-01-01 10:00"))).created_at =
      "2025-02-02 12:30" ∧
    ("2025-02-02 12:30" : String) ≠ "2024-01-01 10:00" :=
  ⟨rfl, by decide⟩

end Todo
